import Mathlib

/-
Verification of the passw0rdportal client (src/main.js, src/tap.js).

Shallow embedding conventions:
- Timestamps are `Int` milliseconds since the epoch (JS `Date.getTime()`).
- JavaScript `x || d` on a possibly-absent value is modelled on `Option`
  with the JS falsiness of `0`, `false` and `""` made explicit.
- Remote HTTP calls are modelled by passing the response (or a function
  from the request body to the response) as an explicit argument; a
  thrown JS exception becomes an `Except` error value, and functions
  whose source catches every exception return the untouched state
  together with the caught-path result.
- DOM reads/writes and animations are side effects outside the data
  model and are not represented.
-/

/-- An authentication-method record from `GET /me/authentication/methods`;
only the `@odata.type` discriminator and the id are relevant to the code. -/
structure AuthMethod where
  odataType : String
  methodId : String
deriving DecidableEq

/-- JS `v || d` for a possibly-absent integer (`0` is falsy). -/
def jsOrInt (v : Option Int) (d : Int) : Int :=
  match v with
  | none => d
  | some x => if x = 0 then d else x

/-- JS `v || d` for a possibly-absent boolean (`false` is falsy). -/
def jsOrBool (v : Option Bool) (d : Bool) : Bool :=
  match v with
  | none => d
  | some b => if b then b else d

/-- JS `v || d` for a possibly-absent string (`""` is falsy). -/
def jsOrStr (v : Option String) (d : String) : String :=
  match v with
  | none => d
  | some s => if s = "" then d else s

/-- The `tapData` object built by `generateTAP` (src/tap.js lines 68-76). -/
structure TAP where
  id : String
  temporaryAccessPass : String
  createdDateTime : Int
  lifetimeInMinutes : Int
  isUsableOnce : Bool
  expiresDateTime : Int
  createdBy : String
deriving DecidableEq

/-- The caller-supplied `config` argument of `generateTAP`; each field may be
absent (JS `undefined`). -/
structure TapConfig where
  lifetimeInMinutes : Option Int
  isUsableOnce : Option Bool
deriving DecidableEq

/-- The merged configuration produced at src/tap.js lines 34-38. -/
structure MergedTapConfig where
  lifetimeInMinutes : Int
  isUsableOnce : Bool
deriving DecidableEq

/-- src/tap.js lines 34-38: the object literal first computes the defaulted
fields with `||`, then `...config` is spread over them, so any field present
in `config` (even a falsy `0` or `false`) overwrites the defaulted value. -/
def tapConfigOf (config : TapConfig) : MergedTapConfig :=
  let defaulted : MergedTapConfig :=
    { lifetimeInMinutes := jsOrInt config.lifetimeInMinutes 60
      isUsableOnce := jsOrBool config.isUsableOnce false }
  { lifetimeInMinutes := config.lifetimeInMinutes.getD defaulted.lifetimeInMinutes
    isUsableOnce := config.isUsableOnce.getD defaulted.isUsableOnce }

/-- The JSON body POSTed to the temporaryAccessPassMethods endpoint
(src/tap.js lines 44-48); the constant `@odata.type` field is omitted. -/
structure TapRequestBody where
  lifetimeInMinutes : Int
  isUsableOnce : Bool
deriving DecidableEq

/-- Request body sent by `generateTAP` (src/tap.js lines 44-48). -/
def tapRequestBody (config : TapConfig) : TapRequestBody :=
  { lifetimeInMinutes := (tapConfigOf config).lifetimeInMinutes
    isUsableOnce := (tapConfigOf config).isUsableOnce }

/-- The `result` record of a successful create call (src/tap.js line 65). -/
structure CreatedPass where
  id : String
  temporaryAccessPass : String
  createdDateTime : Int
  lifetimeInMinutes : Int
  isUsableOnce : Bool
deriving DecidableEq

/-- A response of the POST create call: HTTP status information, the optional
`errorData.error?.message` of the body, and the parsed success record. -/
structure GraphResponse where
  ok : Bool
  status : Nat
  statusText : String
  errorMessage : Option String
  result : CreatedPass
deriving DecidableEq

/-- The distinct throw sites of `generateTAP` (src/tap.js lines 30 and 62):
no authenticated session, or a non-success HTTP response whose wrapped
message is `errorData.error?.message || response.statusText`. -/
inductive TapError where
  | notAuthenticated
  | remote (message : String)
deriving DecidableEq

/-- The mutable fields of `TAPManager` (src/tap.js lines 8-9), with the
countdown interval handle abstracted to whether a ticker is running. -/
structure TapState where
  currentTAP : Option TAP
  tapHistory : List TAP
  countdownActive : Bool
deriving DecidableEq

/-- JS `array.slice(-n)`: the last `n` elements (the whole array when it is
shorter than `n`). -/
def sliceLast (n : Nat) (l : List TAP) : List TAP :=
  l.drop (l.length - n)

/-- src/tap.js lines 159-167: when the history already holds 10 or more
entries it is first cut to its last 9, then the new entry is pushed. -/
def addToHistory (hist : List TAP) (t : TAP) : List TAP :=
  (if 10 ≤ hist.length then sliceLast 9 hist else hist) ++ [t]

/-- src/tap.js lines 26-97, `generateTAP`. The remote POST is modelled by
`remote`, mapping the request body to the HTTP response. On any throw the
state is returned unchanged (the catch block only displays the error and
rethrows); on success the new TAP becomes current, is appended to the
history, and the countdown ticker is started. -/
def generateTAP (isAuthenticated : Bool) (username : String)
    (config : TapConfig) (remote : TapRequestBody → GraphResponse)
    (st : TapState) : TapState × Except TapError TAP :=
  if isAuthenticated = false then
    (st, .error .notAuthenticated)
  else
    let resp := remote (tapRequestBody config)
    if resp.ok = false then
      (st, .error (.remote (jsOrStr resp.errorMessage resp.statusText)))
    else
      let r := resp.result
      let tapData : TAP :=
        { id := r.id
          temporaryAccessPass := r.temporaryAccessPass
          createdDateTime := r.createdDateTime
          lifetimeInMinutes := r.lifetimeInMinutes
          isUsableOnce := r.isUsableOnce
          expiresDateTime := r.createdDateTime + r.lifetimeInMinutes * 60000
          createdBy := username }
      ({ currentTAP := some tapData
         tapHistory := addToHistory st.tapHistory tapData
         countdownActive := true },
       .ok tapData)

/-- A response of the DELETE call (src/tap.js lines 133-138). -/
structure DeleteResponse where
  ok : Bool
  status : Nat
deriving DecidableEq

/-- src/tap.js lines 125-157, `deleteTAP`: requires authentication, issues
the remote delete, treats a non-ok status other than 204 as failure (caught,
history untouched, `false` returned); otherwise filters the id out of the
local history and returns `true`. -/
def deleteTAP (isAuthenticated : Bool) (resp : DeleteResponse)
    (tapId : String) (hist : List TAP) : List TAP × Bool :=
  if isAuthenticated = false then
    (hist, false)
  else if resp.ok = false ∧ resp.status ≠ 204 then
    (hist, false)
  else
    (hist.filter (fun t => t.id ≠ tapId), true)

/-- src/tap.js lines 251-275, `hideTAPDisplay`: clears the countdown
interval and drops the current-TAP reference; the history is not touched. -/
def hideTAPDisplay (st : TapState) : TapState :=
  { st with currentTAP := none, countdownActive := false }

/-- One tick of the countdown (src/tap.js lines 218-242): with
`remaining = expiresTime - now`, a value ≤ 0 hides the display (which stops
the ticker and clears the current TAP); otherwise only the rendered text
changes and the state is untouched. -/
def countdownTick (expiresTime now : Int) (st : TapState) : TapState :=
  if expiresTime - now ≤ 0 then hideTAPDisplay st else st

/-- src/tap.js lines 622-626: the passwordless allow-list check on a
method's `@odata.type`. -/
def isPasswordlessMethod (m : AuthMethod) : Bool :=
  m.odataType == "#microsoft.graph.fido2AuthenticationMethod" ||
  m.odataType == "#microsoft.graph.windowsHelloForBusinessAuthenticationMethod" ||
  m.odataType == "#microsoft.graph.microsoftAuthenticatorAuthenticationMethod"

/-- A response of `GET /me/authentication/methods`
(src/tap.js lines 608-619). -/
structure MethodsResponse where
  ok : Bool
  status : Nat
  value : List AuthMethod
deriving DecidableEq

/-- The record returned by `checkPasswordlessStatus`
(src/tap.js lines 628-641). -/
structure PasswordlessStatus where
  hasPasswordless : Bool
  methods : List AuthMethod
  allMethods : List AuthMethod
  errorMessage : Option String
deriving DecidableEq

/-- src/tap.js lines 603-642, `checkPasswordlessStatus`. `tokenError` is the
message of a `getAccessToken` throw (`none` when a token was obtained). Any
error — token failure or non-ok HTTP status — is caught and turned into the
fail-open record with `hasPasswordless = false` and empty lists. -/
def checkPasswordlessStatus (tokenError : Option String)
    (resp : MethodsResponse) : PasswordlessStatus :=
  match tokenError with
  | some msg => { hasPasswordless := false, methods := [], allMethods := [],
                  errorMessage := some msg }
  | none =>
    if resp.ok = false then
      { hasPasswordless := false, methods := [], allMethods := [],
        errorMessage := some ("Error Graph API: " ++ toString resp.status) }
    else
      let passwordlessMethods := resp.value.filter isPasswordlessMethod
      { hasPasswordless := decide (0 < passwordlessMethods.length)
        methods := passwordlessMethods
        allMethods := resp.value
        errorMessage := none }

/-- The persisted wizard record (src/main.js lines 63-71). -/
structure WizardProgress where
  step1 : Bool
  step2 : Bool
  step3 : Bool
  passwordlessEnabled : Bool
  methods : List AuthMethod
deriving DecidableEq

/-- src/main.js lines 63-71, `getDefaultProgress`. -/
def getDefaultProgress : WizardProgress :=
  { step1 := false, step2 := false, step3 := false,
    passwordlessEnabled := false, methods := [] }

/-- src/main.js line 9: `this.totalSteps = 3`. -/
def totalSteps : Nat := 3

/-- src/main.js lines 255-266, `validateCurrentStep`. -/
def validateCurrentStep (currentStep : Nat) (p : WizardProgress) : Bool :=
  match currentStep with
  | 1 => p.step1
  | 2 => p.step2
  | 3 => p.step3
  | _ => true

/-- The cursor movement of `nextStep` (src/main.js lines 234-246): advance
by one only below `totalSteps` and only when the current step validates. -/
def nextStepCursor (currentStep : Nat) (p : WizardProgress) : Nat :=
  if currentStep < totalSteps then
    if validateCurrentStep currentStep p then currentStep + 1 else currentStep
  else currentStep

/-- The cursor movement of `prevStep` (src/main.js lines 248-253). -/
def prevStepCursor (currentStep : Nat) : Nat :=
  if 1 < currentStep then currentStep - 1 else currentStep

/-- Effect of `verifyRequirements` on the progress record
(src/main.js line 292). -/
def verifyRequirementsProgress (p : WizardProgress) : WizardProgress :=
  { p with step1 := true }

/-- Effect of `setupAuthenticationMethods` on the progress record
(src/main.js line 366). -/
def setupAuthenticationMethodsProgress (p : WizardProgress) : WizardProgress :=
  { p with step2 := true }

/-- Effect of `validateSetup` on the progress record
(src/main.js lines 401-402). -/
def validateSetupProgress (p : WizardProgress) : WizardProgress :=
  { p with step3 := true, passwordlessEnabled := true }

/-- The live state of `PasswordlessManager`: the step cursor, the in-memory
progress, and the progress persisted under the `passwordlessProgress`
localStorage key. -/
structure WizardState where
  currentStep : Nat
  progress : WizardProgress
  stored : WizardProgress
deriving DecidableEq

/-- The user-drivable events of the wizard. The three step handlers are
gated on their own step being the current one, because each handler's button
lives inside that step's content container, which `showCurrentStep`
(src/main.js lines 184-212) hides for every other cursor position. `reload`
is a page load whose passwordless check comes back negative (the persisted
progress is loaded, src/main.js lines 53-56); `reloadPasswordless` is a page
load where the provider reports passwordless enabled (short-circuit to the
completed state, src/main.js lines 44-52). -/
inductive WizardEvent where
  | verifyRequirements
  | setupAuthenticationMethods
  | validateSetup
  | nextStep
  | prevStep
  | reload
  | reloadPasswordless (methods : List AuthMethod)
deriving DecidableEq

/-- One UI event of the wizard. Handlers persist the progress they set
(`saveProgress`); `nextStep` persists on a successful advance
(src/main.js line 244); `validateSetup` additionally moves the cursor to
`totalSteps + 1` (src/main.js lines 408-411). -/
def wizardStep (e : WizardEvent) (s : WizardState) : WizardState :=
  match e with
  | .verifyRequirements =>
    if s.currentStep = 1 then
      let p := verifyRequirementsProgress s.progress
      { s with progress := p, stored := p }
    else s
  | .setupAuthenticationMethods =>
    if s.currentStep = 2 then
      let p := setupAuthenticationMethodsProgress s.progress
      { s with progress := p, stored := p }
    else s
  | .validateSetup =>
    if s.currentStep = 3 then
      let p := validateSetupProgress s.progress
      { currentStep := totalSteps + 1, progress := p, stored := p }
    else s
  | .nextStep =>
    if s.currentStep < totalSteps then
      if validateCurrentStep s.currentStep s.progress then
        { s with currentStep := s.currentStep + 1, stored := s.progress }
      else s
    else s
  | .prevStep =>
    { s with currentStep := prevStepCursor s.currentStep }
  | .reload =>
    { s with currentStep := 1, progress := s.stored }
  | .reloadPasswordless ms =>
    { s with currentStep := totalSteps + 1,
             progress := { step1 := true, step2 := true, step3 := true,
                           passwordlessEnabled := true, methods := ms } }

/-- First load against empty storage: cursor 1, default progress
(src/main.js lines 8-10 and 73-81). -/
def initWizardState : WizardState :=
  { currentStep := 1, progress := getDefaultProgress,
    stored := getDefaultProgress }

/-- States reachable through the wizard UI from a fresh load. -/
inductive ReachableWizard : WizardState → Prop where
  | init : ReachableWizard initWizardState
  | step (e : WizardEvent) {s : WizardState} :
      ReachableWizard s → ReachableWizard (wizardStep e s)

/-- The spec's WizardProgress invariant: `passwordlessEnabled` implies all
three step flags. -/
def progressInvariant (p : WizardProgress) : Prop :=
  p.passwordlessEnabled = true →
    p.step1 = true ∧ p.step2 = true ∧ p.step3 = true

/-- Inductive strengthening: both the live and the persisted progress
satisfy the invariant, and the cursor position witnesses the flags of the
steps already passed. -/
def wizardInvariant (s : WizardState) : Prop :=
  progressInvariant s.progress ∧ progressInvariant s.stored ∧
  (2 ≤ s.currentStep → s.progress.step1 = true) ∧
  (3 ≤ s.currentStep → s.progress.step1 = true ∧ s.progress.step2 = true)

theorem wizardInvariant_init : wizardInvariant initWizardState := by
  simp [wizardInvariant, initWizardState, progressInvariant, getDefaultProgress]

theorem wizardInvariant_step (e : WizardEvent) (s : WizardState)
    (h : wizardInvariant s) : wizardInvariant (wizardStep e s) := by
  obtain ⟨cs, ⟨p1, p2, p3, pw, ms⟩, stor⟩ := s
  obtain ⟨hp, hst, h2, h3⟩ := h
  dsimp only at *
  cases e with
  | verifyRequirements =>
    simp only [wizardStep]
    by_cases hc : cs = 1
    · subst hc
      rw [if_pos rfl]
      exact ⟨fun hpw => ⟨rfl, (hp hpw).2.1, (hp hpw).2.2⟩,
             fun hpw => ⟨rfl, (hp hpw).2.1, (hp hpw).2.2⟩,
             fun hge => rfl,
             fun hge => absurd hge (by dsimp only; omega)⟩
    · rw [if_neg hc]
      exact ⟨hp, hst, h2, h3⟩
  | setupAuthenticationMethods =>
    simp only [wizardStep]
    by_cases hc : cs = 2
    · subst hc
      rw [if_pos rfl]
      exact ⟨fun hpw => ⟨(hp hpw).1, rfl, (hp hpw).2.2⟩,
             fun hpw => ⟨(hp hpw).1, rfl, (hp hpw).2.2⟩,
             fun hge => h2 (by decide),
             fun hge => absurd hge (by dsimp only; omega)⟩
    · rw [if_neg hc]
      exact ⟨hp, hst, h2, h3⟩
  | validateSetup =>
    simp only [wizardStep]
    by_cases hc : cs = 3
    · subst hc
      rw [if_pos rfl]
      have hs12 := h3 (by decide)
      exact ⟨fun hpw => ⟨hs12.1, hs12.2, rfl⟩,
             fun hpw => ⟨hs12.1, hs12.2, rfl⟩,
             fun hge => hs12.1,
             fun hge => ⟨hs12.1, hs12.2⟩⟩
    · rw [if_neg hc]
      exact ⟨hp, hst, h2, h3⟩
  | nextStep =>
    simp only [wizardStep]
    by_cases hc : cs < totalSteps
    · rw [if_pos hc]
      by_cases hv : validateCurrentStep cs ⟨p1, p2, p3, pw, ms⟩ = true
      · rw [if_pos hv]
        have hc3 : cs < 3 := hc
        refine ⟨hp, hp, fun hge => ?_, fun hge => ?_⟩
        · interval_cases cs
          · exact absurd hge (by dsimp only; omega)
          · exact hv
          · exact h2 (by decide)
        · interval_cases cs
          · exact absurd hge (by dsimp only; omega)
          · exact absurd hge (by dsimp only; omega)
          · exact ⟨h2 (by decide), hv⟩
      · rw [if_neg hv]
        exact ⟨hp, hst, h2, h3⟩
    · rw [if_neg hc]
      exact ⟨hp, hst, h2, h3⟩
  | prevStep =>
    simp only [wizardStep]
    refine ⟨hp, hst, fun hge => h2 ?_, fun hge => h3 ?_⟩
    · dsimp only [prevStepCursor] at hge
      split at hge <;> omega
    · dsimp only [prevStepCursor] at hge
      split at hge <;> omega
  | reload =>
    exact ⟨hst, hst, fun hge => absurd hge (by simp only [wizardStep]; omega),
           fun hge => absurd hge (by simp only [wizardStep]; omega)⟩
  | reloadPasswordless ms2 =>
    exact ⟨fun hpw => ⟨rfl, rfl, rfl⟩, hst, fun hge => rfl,
           fun hge => ⟨rfl, rfl⟩⟩

theorem wizardInvariant_reachable (s : WizardState)
    (h : ReachableWizard s) : wizardInvariant s := by
  induction h with
  | init => exact wizardInvariant_init
  | step e _ ih => exact wizardInvariant_step e _ ih

/-- Claim C2: the history never exceeds 10 entries — `addToHistory` always
returns at most 10 — and on a history of exactly 10 entries it drops the
oldest (the head) and appends the new entry last, keeping the 10 most
recent in their original relative order. -/
theorem addToHistory_cap_and_evict (hist : List TAP) (t : TAP) :
    (addToHistory hist t).length ≤ 10 ∧
    (hist.length = 10 → addToHistory hist t = hist.drop 1 ++ [t]) := by
  constructor
  · by_cases h : 10 ≤ hist.length <;>
      simp [addToHistory, sliceLast, h] <;> omega
  · intro h10
    simp [addToHistory, sliceLast, h10]

/-- Claim C1, counterexample to the unrestricted reading: the step handlers
are not themselves guarded by the earlier flags, so the single-handler
sequence `validateSetup` applied to the default (all-false) progress yields
`passwordlessEnabled = true` while `step1 = false`. -/
theorem validateSetup_from_default_breaks_invariant :
    (validateSetupProgress getDefaultProgress).passwordlessEnabled = true ∧
    (validateSetupProgress getDefaultProgress).step1 = false :=
  ⟨rfl, rfl⟩

/-- Claim C1 (amended): for every wizard state reachable through the UI —
each step handler firing only while its own step is the current one,
navigation via nextStep/prevStep, and page loads restoring the persisted
progress or short-circuiting to completed on a positive provider report —
`passwordlessEnabled = true` implies `step1 = step2 = step3 = true`. -/
theorem reachable_passwordless_implies_all_steps (s : WizardState)
    (h : ReachableWizard s) : progressInvariant s.progress :=
  (wizardInvariant_reachable s h).1

/-- Witness for C1 at the concrete reachable state obtained by verifying
requirements, advancing, configuring methods, advancing, and validating. -/
theorem reachable_passwordless_implies_all_steps_witness :
    progressInvariant (wizardStep .validateSetup (wizardStep .nextStep
      (wizardStep .setupAuthenticationMethods (wizardStep .nextStep
        (wizardStep .verifyRequirements initWizardState))))).progress :=
  reachable_passwordless_implies_all_steps _
    (.step _ (.step _ (.step _ (.step _ (.step _ .init)))))

/-- Witness for C2 at a concrete history of exactly 10 entries. -/
theorem addToHistory_cap_and_evict_witness :
    addToHistory (List.replicate 10
        (⟨"tap-0", "secret", 0, 60, false, 3600000, "user"⟩ : TAP))
        ⟨"tap-new", "secret2", 1, 30, true, 1800001, "user"⟩ =
      (List.replicate 10
        (⟨"tap-0", "secret", 0, 60, false, 3600000, "user"⟩ : TAP)).drop 1 ++
        [⟨"tap-new", "secret2", 1, 30, true, 1800001, "user"⟩] ∧
    (addToHistory (List.replicate 10
        (⟨"tap-0", "secret", 0, 60, false, 3600000, "user"⟩ : TAP))
        ⟨"tap-new", "secret2", 1, 30, true, 1800001, "user"⟩).length ≤ 10 :=
  ⟨(addToHistory_cap_and_evict _ _).2 rfl, (addToHistory_cap_and_evict _ _).1⟩

/-- Claim C3: with an authenticated session, when the remote create call
answers a non-success HTTP status whose body carries the error message
"quota exceeded", `generateTAP` fails with the remote error carrying that
message and leaves the state — `currentTAP` and the history — unchanged. -/
theorem generateTAP_remote_error_preserves_state (username : String)
    (config : TapConfig) (remote : TapRequestBody → GraphResponse)
    (st : TapState)
    (hok : (remote (tapRequestBody config)).ok = false)
    (hmsg : (remote (tapRequestBody config)).errorMessage =
      some "quota exceeded") :
    generateTAP true username config remote st =
      (st, .error (.remote "quota exceeded")) := by
  simp [generateTAP, hok, hmsg, jsOrStr]

/-- Witness for C3 at a concrete HTTP 400 response. -/
theorem generateTAP_remote_error_preserves_state_witness :
    generateTAP true "admin" ⟨none, none⟩
      (fun _ => ⟨false, 400, "Bad Request", some "quota exceeded",
                 ⟨"", "", 0, 0, false⟩⟩)
      ⟨none, [], false⟩ =
      (⟨none, [], false⟩, .error (.remote "quota exceeded")) :=
  generateTAP_remote_error_preserves_state "admin" ⟨none, none⟩ _ _ rfl rfl

/-- Claim C4, counterexample: with an authenticated session and an id absent
from the (empty) local history, a remote delete answering 204 makes
`deleteTAP` return `true`, not the failure `false` the claim requires: the
return value tracks the remote response, not local presence. -/
theorem deleteTAP_absent_id_can_return_true :
    deleteTAP true ⟨true, 204⟩ "missing-id" [] = ([], true) := by
  rfl

/-- Claim C4 (amended): for an authenticated session and an id not present
in the local history, `deleteTAP` removes no history entry and never throws;
it returns `false` exactly when the remote delete reports failure (a non-ok
status other than 204), and `true` on a remote success despite the id's
local absence. -/
theorem deleteTAP_absent_id_spec (resp : DeleteResponse) (tapId : String)
    (hist : List TAP) (habsent : ∀ t ∈ hist, t.id ≠ tapId) :
    (deleteTAP true resp tapId hist).1 = hist ∧
    ((deleteTAP true resp tapId hist).2 = false ↔
      resp.ok = false ∧ resp.status ≠ 204) := by
  unfold deleteTAP
  rw [if_neg (by simp)]
  by_cases hr : resp.ok = false ∧ resp.status ≠ 204
  · rw [if_pos hr]
    exact ⟨rfl, by simpa using hr⟩
  · rw [if_neg hr]
    refine ⟨?_, by simpa using hr⟩
    rw [List.filter_eq_self]
    simpa using habsent

/-- Witness for C4 at a concrete failing remote delete (HTTP 404) and an
empty history. -/
theorem deleteTAP_absent_id_spec_witness :
    (deleteTAP true ⟨false, 404⟩ "missing-id" []).1 = [] ∧
    ((deleteTAP true ⟨false, 404⟩ "missing-id" []).2 = false ↔
      (false : Bool) = false ∧ (404 : Nat) ≠ 204) :=
  deleteTAP_absent_id_spec ⟨false, 404⟩ "missing-id" [] (by simp)

/-- Claim C5: the request body sent by `generateTAP` keeps every supplied
config field — including the falsy values `lifetimeInMinutes = 0` and
`isUsableOnce = false`, which the `...config` spread re-asserts over the
`||`-defaulted fields — and falls back to the defaults `60` and `false`
only when the corresponding field is absent. -/
theorem tapRequestBody_merge_spec (config : TapConfig) :
    (∀ v, config.lifetimeInMinutes = some v →
      (tapRequestBody config).lifetimeInMinutes = v) ∧
    (config.lifetimeInMinutes = none →
      (tapRequestBody config).lifetimeInMinutes = 60) ∧
    (∀ b, config.isUsableOnce = some b →
      (tapRequestBody config).isUsableOnce = b) ∧
    (config.isUsableOnce = none →
      (tapRequestBody config).isUsableOnce = false) := by
  obtain ⟨lm, uo⟩ := config
  cases lm <;> cases uo <;>
    simp [tapRequestBody, tapConfigOf, jsOrInt, jsOrBool]

/-- Witness for C5 at the falsy supplied values `0` and `false`. -/
theorem tapRequestBody_merge_spec_witness :
    (tapRequestBody ⟨some 0, some false⟩).lifetimeInMinutes = 0 ∧
    (tapRequestBody ⟨some 0, some false⟩).isUsableOnce = false :=
  ⟨(tapRequestBody_merge_spec ⟨some 0, some false⟩).1 0 rfl,
   (tapRequestBody_merge_spec ⟨some 0, some false⟩).2.2.1 false rfl⟩

/-- Claim C6: every TAP returned by a successful `generateTAP` has
`expiresDateTime` equal to `createdDateTime` plus exactly
`lifetimeInMinutes * 60` seconds (i.e. `lifetimeInMinutes * 60000` ms). -/
theorem generateTAP_expiry_exact (isAuthenticated : Bool) (username : String)
    (config : TapConfig) (remote : TapRequestBody → GraphResponse)
    (st st' : TapState) (tap : TAP)
    (h : generateTAP isAuthenticated username config remote st =
      (st', .ok tap)) :
    tap.expiresDateTime = tap.createdDateTime + tap.lifetimeInMinutes * 60000 := by
  unfold generateTAP at h
  by_cases ha : isAuthenticated = false
  · rw [if_pos ha] at h
    simp at h
  · rw [if_neg ha] at h
    by_cases hok : (remote (tapRequestBody config)).ok = false
    · rw [if_pos hok] at h
      simp at h
    · rw [if_neg hok] at h
      dsimp only at h
      simp only [Prod.mk.injEq, Except.ok.injEq] at h
      obtain ⟨-, htap⟩ := h
      subst htap
      rfl

/-- Witness for C6 at a concrete successful creation (created at 1000 ms,
lifetime 5 minutes, expiry 301000 ms). -/
theorem generateTAP_expiry_exact_witness :
    (⟨"tap-1", "Xy7", 1000, 5, true, 301000, "admin"⟩ : TAP).expiresDateTime =
      (⟨"tap-1", "Xy7", 1000, 5, true, 301000, "admin"⟩ : TAP).createdDateTime +
      (⟨"tap-1", "Xy7", 1000, 5, true, 301000, "admin"⟩ : TAP).lifetimeInMinutes
        * 60000 :=
  generateTAP_expiry_exact true "admin" ⟨none, none⟩
    (fun _ => ⟨true, 200, "OK", none, ⟨"tap-1", "Xy7", 1000, 5, true⟩⟩)
    ⟨none, [], false⟩
    ⟨some ⟨"tap-1", "Xy7", 1000, 5, true, 301000, "admin"⟩,
     [⟨"tap-1", "Xy7", 1000, 5, true, 301000, "admin"⟩], true⟩
    ⟨"tap-1", "Xy7", 1000, 5, true, 301000, "admin"⟩ rfl

/-- Claim C7: for every cursor in `[1, totalSteps + 1]`, `nextStepCursor`
advances only when the current step's completion flag validates (and then by
exactly one), is a no-op when the flag is false, `prevStepCursor` never
moves below 1, and `nextStepCursor` never moves beyond `totalSteps + 1`. -/
theorem wizard_cursor_bounds (cs : Nat) (p : WizardProgress)
    (h1 : 1 ≤ cs) (h2 : cs ≤ totalSteps + 1) :
    (nextStepCursor cs p ≠ cs →
      validateCurrentStep cs p = true ∧ nextStepCursor cs p = cs + 1) ∧
    (validateCurrentStep cs p = false → nextStepCursor cs p = cs) ∧
    1 ≤ prevStepCursor cs ∧
    nextStepCursor cs p ≤ totalSteps + 1 := by
  have h2' : cs ≤ 4 := h2
  obtain ⟨p1, p2, p3, pw, ms⟩ := p
  interval_cases cs <;>
    cases p1 <;> cases p2 <;> cases p3 <;>
      simp [nextStepCursor, prevStepCursor, validateCurrentStep, totalSteps]

/-- Witness for C7 at cursor 1 with a validated first step. -/
theorem wizard_cursor_bounds_witness :
    (nextStepCursor 1 ⟨true, false, false, false, []⟩ ≠ 1 →
      validateCurrentStep 1 ⟨true, false, false, false, []⟩ = true ∧
      nextStepCursor 1 ⟨true, false, false, false, []⟩ = 1 + 1) ∧
    (validateCurrentStep 1 ⟨true, false, false, false, []⟩ = false →
      nextStepCursor 1 ⟨true, false, false, false, []⟩ = 1) ∧
    1 ≤ prevStepCursor 1 ∧
    nextStepCursor 1 ⟨true, false, false, false, []⟩ ≤ totalSteps + 1 :=
  wizard_cursor_bounds 1 ⟨true, false, false, false, []⟩ (by decide) (by decide)

/-- Claim C8: once the countdown computes a remaining time
`expiresTime - now` of zero or below, the tick stops the ticker and clears
the current-TAP reference, while the history — and hence every entry in it,
with all its fields — is left unchanged. -/
theorem countdown_expiry_clears_current (expiresTime now : Int)
    (st : TapState) (h : expiresTime - now ≤ 0) :
    (countdownTick expiresTime now st).currentTAP = none ∧
    (countdownTick expiresTime now st).countdownActive = false ∧
    (countdownTick expiresTime now st).tapHistory = st.tapHistory := by
  unfold countdownTick
  rw [if_pos h]
  exact ⟨rfl, rfl, rfl⟩

/-- Witness for C8: a TAP generated with `lifetimeInMinutes = 1` at time 0
expires at 60000 ms; 61 simulated seconds later the countdown is ≤ 0, the
current reference is dropped and the history entry is intact. -/
theorem countdown_expiry_clears_current_witness :
    (countdownTick 60000 61000
      ⟨some ⟨"tap-2", "Zq9", 0, 1, true, 60000, "admin"⟩,
       [⟨"tap-2", "Zq9", 0, 1, true, 60000, "admin"⟩], true⟩).currentTAP =
      none ∧
    (countdownTick 60000 61000
      ⟨some ⟨"tap-2", "Zq9", 0, 1, true, 60000, "admin"⟩,
       [⟨"tap-2", "Zq9", 0, 1, true, 60000, "admin"⟩], true⟩).countdownActive =
      false ∧
    (countdownTick 60000 61000
      ⟨some ⟨"tap-2", "Zq9", 0, 1, true, 60000, "admin"⟩,
       [⟨"tap-2", "Zq9", 0, 1, true, 60000, "admin"⟩], true⟩).tapHistory =
      [⟨"tap-2", "Zq9", 0, 1, true, 60000, "admin"⟩] :=
  countdown_expiry_clears_current 60000 61000 _ (by decide)

/-- Claim C9: `checkPasswordlessStatus` fails open — on a token failure or a
non-success HTTP status it returns `hasPasswordless = false` with empty
`methods` and `allMethods` instead of propagating — and, given a methods
list holding exactly one entry whose type-tag is in the passwordless
allow-list, it returns `hasPasswordless = true` with `methods` containing
exactly that entry. -/
theorem checkPasswordlessStatus_spec (tokenError : Option String)
    (resp : MethodsResponse) :
    ((tokenError ≠ none ∨ resp.ok = false) →
      (checkPasswordlessStatus tokenError resp).hasPasswordless = false ∧
      (checkPasswordlessStatus tokenError resp).methods = [] ∧
      (checkPasswordlessStatus tokenError resp).allMethods = []) ∧
    (∀ m, tokenError = none → resp.ok = true → resp.value = [m] →
      isPasswordlessMethod m = true →
      checkPasswordlessStatus tokenError resp =
        { hasPasswordless := true, methods := [m], allMethods := [m],
          errorMessage := none }) := by
  constructor
  · intro hfail
    cases tokenError with
    | some msg => exact ⟨rfl, rfl, rfl⟩
    | none =>
      have hok : resp.ok = false := by
        rcases hfail with hl | hr
        · exact absurd rfl hl
        · exact hr
      simp [checkPasswordlessStatus, hok]
  · intro m hte hok hval hm
    subst hte
    simp [checkPasswordlessStatus, hok, hval, hm]

/-- Witness for C9 at a platform-biometric (Windows Hello) method entry. -/
theorem checkPasswordlessStatus_spec_witness :
    checkPasswordlessStatus none
      ⟨true, 200,
       [⟨"#microsoft.graph.windowsHelloForBusinessAuthenticationMethod",
         "m1"⟩]⟩ =
      { hasPasswordless := true,
        methods :=
          [⟨"#microsoft.graph.windowsHelloForBusinessAuthenticationMethod",
            "m1"⟩],
        allMethods :=
          [⟨"#microsoft.graph.windowsHelloForBusinessAuthenticationMethod",
            "m1"⟩],
        errorMessage := none } :=
  (checkPasswordlessStatus_spec none _).2
    ⟨"#microsoft.graph.windowsHelloForBusinessAuthenticationMethod", "m1"⟩
    rfl rfl rfl (by decide)

/-- Claim C10: from any cursor position at most `totalSteps`, the `nextStep`
event never moves the cursor above `totalSteps` (3); the completion position
`totalSteps + 1` is entered only by the `validateSetup` success path or by
the short-circuit on a provider report of passwordless already enabled,
never by `nextStep`. -/
theorem completion_only_via_validate (s : WizardState) (e : WizardEvent)
    (h : s.currentStep ≤ totalSteps) :
    (wizardStep .nextStep s).currentStep ≤ totalSteps ∧
    (totalSteps < (wizardStep e s).currentStep →
      e = .validateSetup ∨ ∃ ms, e = .reloadPasswordless ms) := by
  obtain ⟨cs, prog, stor⟩ := s
  have h' : cs ≤ 3 := h
  constructor
  · show (wizardStep WizardEvent.nextStep ⟨cs, prog, stor⟩).currentStep ≤ 3
    simp only [wizardStep]
    by_cases hc : cs < totalSteps
    · rw [if_pos hc]
      have hc' : cs < 3 := hc
      split <;> dsimp only <;> omega
    · rw [if_neg hc]
      exact h'
  · intro hgt
    have hgt' : 3 < (wizardStep e ⟨cs, prog, stor⟩).currentStep := hgt
    clear hgt h
    cases e with
    | verifyRequirements =>
      exfalso
      simp only [wizardStep] at hgt'
      split at hgt' <;> dsimp only at hgt' <;> omega
    | setupAuthenticationMethods =>
      exfalso
      simp only [wizardStep] at hgt'
      split at hgt' <;> dsimp only at hgt' <;> omega
    | validateSetup => exact Or.inl rfl
    | nextStep =>
      exfalso
      simp only [wizardStep] at hgt'
      by_cases hc : cs < totalSteps
      · rw [if_pos hc] at hgt'
        have hc' : cs < 3 := hc
        split at hgt' <;> dsimp only at hgt' <;> omega
      · rw [if_neg hc] at hgt'
        dsimp only at hgt'
        omega
    | prevStep =>
      exfalso
      simp only [wizardStep, prevStepCursor] at hgt'
      split at hgt' <;> omega
    | reload =>
      exfalso
      simp only [wizardStep] at hgt'
      omega
    | reloadPasswordless ms => exact Or.inr ⟨ms, rfl⟩

/-- Witness for C10: at cursor 3 with all flags set, `nextStep` stays at 3
while the `validateSetup` event reaches the completion position. -/
theorem completion_only_via_validate_witness :
    (wizardStep .nextStep
      ⟨3, ⟨true, true, true, false, []⟩, ⟨true, true, true, false, []⟩⟩
      : WizardState).currentStep ≤ totalSteps ∧
    (totalSteps < (wizardStep .validateSetup
      ⟨3, ⟨true, true, true, false, []⟩, ⟨true, true, true, false, []⟩⟩
      : WizardState).currentStep →
      WizardEvent.validateSetup = .validateSetup ∨
      ∃ ms, WizardEvent.validateSetup = .reloadPasswordless ms) :=
  completion_only_via_validate
    ⟨3, ⟨true, true, true, false, []⟩, ⟨true, true, true, false, []⟩⟩
    .validateSetup (by decide)
